import Mathlib

/-!
Verification of the AI Twin Analytics Dashboard frontend against its
natural-language specification.  The definitions below are shallow
embeddings of the TypeScript source under `frontend/src/`; JavaScript
strings are modelled as Lean `String`, JS `Array.filter` over dynamic
values as an `Option`-returning operation, JS `Math.round` as Mathlib's
`round` (both compute `⌊x + 1/2⌋`), and calendar dates as day numbers
with an explicit civil-date conversion.  Backend logic that is not part
of the frontend sources (the FastAPI analytics engine) is modelled from
the specification text and marked as such in its doc comment.
-/

/-! ## JavaScript string primitives -/

/-- JS `String.prototype.toLowerCase`, restricted to the per-character
lowering that `Char.toLower` performs (the sources only compare ASCII
emails, action summaries and `YYYY-MM-DD` dates). -/
def jsToLower (s : String) : String :=
  ⟨s.data.map Char.toLower⟩

/-- Substring test on character lists: does `needle` occur contiguously
inside `hay`?  This is the semantics of JS `String.prototype.includes`. -/
def strContains (needle : List Char) : List Char → Bool
  | [] => needle.isEmpty
  | c :: t => needle.isPrefixOf (c :: t) || strContains needle t

/-- JS `hay.includes(needle)`. -/
def jsIncludes (hay needle : String) : Bool :=
  strContains needle.data hay.data

/-- JS `a < b` on strings: lexicographic comparison by code unit. -/
def jsStrLt : List Char → List Char → Bool
  | [], [] => false
  | [], _ :: _ => true
  | _ :: _, [] => false
  | a :: as, b :: bs => if a < b then true else if b < a then false else jsStrLt as bs

/-- JS `a <= b` on strings, which is `!(a > b)`, i.e. `!(b < a)`. -/
def jsLe (a b : String) : Bool :=
  !(jsStrLt b.data a.data)

/-! ## Data shapes shared by the pages -/

/-- One entry of the activity feed as the frontend consumes it
(`frontend/src/pages/Activities.tsx`): the fields the page reads. -/
structure Activity where
  id : Nat
  user : String
  action : String
  type : String
  hasDocuments : Bool
  hasQueries : Bool
  documentCount : Nat
  queryCount : Nat
deriving DecidableEq, Repr

/-- The documented pagination envelope returned by `/api/activities`
(`frontend/src/utils/api.ts`, `getAllActivities`). -/
structure Envelope where
  items : List Activity
  total : Nat
  page : Nat
  limit : Nat
  total_pages : Nat
  has_next : Bool
  has_prev : Bool
deriving DecidableEq, Repr

/-! ## Activities page (`frontend/src/pages/Activities.tsx`) -/

/-- The search predicate of the Activities page: JS
`activity.user.toLowerCase().includes(q.toLowerCase()) ||
 activity.action.toLowerCase().includes(q.toLowerCase())`. -/
def matchesSearch (searchQuery : String) (activity : Activity) : Bool :=
  jsIncludes (jsToLower activity.user) (jsToLower searchQuery) ||
    jsIncludes (jsToLower activity.action) (jsToLower searchQuery)

/-- `filteredActivities` of `Activities.tsx`:
`allActivities.filter((activity) => ...)` with the search predicate. -/
def filteredActivities (searchQuery : String) (allActivities : List Activity) :
    List Activity :=
  allActivities.filter (matchesSearch searchQuery)

/-- The filter the specification describes for the `user` parameter: keep
exactly the activities whose user email contains the search string as a
case-insensitive substring, and nothing else.  Stated from the spec for
comparison with `filteredActivities`. -/
def specUserEmailFilter (searchQuery : String) (activities : List Activity) :
    List Activity :=
  activities.filter (fun a => jsIncludes (jsToLower a.user) (jsToLower searchQuery))

/-! ## Dynamic typing of the API response (`api.ts` / `Activities.tsx`) -/

/-- A value the Activities page may receive from `getAllActivities`:
either a bare JSON array of activities, or the documented pagination
envelope object. -/
inductive ApiResponse where
  | bareArray (xs : List Activity)
  | envelope (e : Envelope)
deriving DecidableEq, Repr

/-- What `getAllActivities` returns for a server that answers with the
documented envelope shape (`api.ts` line 109: returns
`{ items, total, page, limit, total_pages, has_next, has_prev }`). -/
def getAllActivitiesReturn (e : Envelope) : ApiResponse :=
  ApiResponse.envelope e

/-- JS `value.filter(p)`: defined (returning the filtered array) when the
value is an array, undefined (a TypeError at run time) when the value is
a plain object such as the pagination envelope. -/
def jsArrayFilter (v : ApiResponse) (p : Activity → Bool) :
    Option (List Activity) :=
  match v with
  | ApiResponse.bareArray xs => some (xs.filter p)
  | ApiResponse.envelope _ => none

/-- The Activities page's filtering step applied to whatever response it
stored: `allActivities.filter((activity) => matchesSearch ...)`. -/
def activitiesPageFiltered (resp : ApiResponse) (searchQuery : String) :
    Option (List Activity) :=
  jsArrayFilter resp (matchesSearch searchQuery)

/-! ## Badges of the Activities table (`Activities.tsx` lines 153-170) -/

/-- What the Activity cell of one table row can contain: a document-count
badge, a query-count badge, or the dash placeholder. -/
inductive TableBadge where
  | docBadge (count : Nat)
  | queryBadge (count : Nat)
  | dash
deriving DecidableEq, Repr

/-- The badges rendered in the Activity cell for one activity row:
`{activity.hasDocuments && <Badge>…{activity.documentCount}</Badge>}`
`{activity.hasQueries && <Badge>…{activity.queryCount}</Badge>}`
`{!activity.hasDocuments && !activity.hasQueries && <span>-</span>}`. -/
def activityBadges (activity : Activity) : List TableBadge :=
  (if activity.hasDocuments then [TableBadge.docBadge activity.documentCount] else []) ++
    (if activity.hasQueries then [TableBadge.queryBadge activity.queryCount] else []) ++
      (if !activity.hasDocuments && !activity.hasQueries then [TableBadge.dash] else [])

/-! ## Chart data and zooming (`frontend/src/components/ActivityCharts.tsx`) -/

/-- A `{ start, end }` date-range object.  `end` is a Lean keyword, so the
field is called `stop` here. -/
structure DateRange where
  start : String
  stop : String
deriving DecidableEq, Repr

/-- One point of a fetched daily series: its `date`, the plotted value
(`activeUsers` for the DAU chart) and the constant `average` field the
series builder attaches. -/
structure SeriesPoint where
  date : String
  activeUsers : ℚ
  average : ℚ
deriving DecidableEq, Repr

/-- One point of the hourly-activity series. -/
structure HourPoint where
  hour : Nat
  value : ℚ
deriving DecidableEq, Repr

/-- `getFilteredData` of `ActivityCharts.tsx`:
`if (!dateRange.start || !dateRange.end || !data.length) return data;`
then return `data` unchanged when the range equals the base range, else
`data.filter(item => item.date >= dateRange.start && item.date <= dateRange.end)`. -/
def getFilteredData (dateRange baseDateRange : DateRange)
    (data : List SeriesPoint) : List SeriesPoint :=
  if dateRange.start = "" ∨ dateRange.stop = "" ∨ data = [] then data
  else if dateRange.start = baseDateRange.start ∧ dateRange.stop = baseDateRange.stop then
    data
  else
    data.filter (fun item => jsLe dateRange.start item.date && jsLe item.date dateRange.stop)

/-- `avgActiveUsers` of `ActivityCharts.tsx`:
`activityData.length > 0 ? Math.round(activityData.reduce((s,d) => s + d.activeUsers, 0) / activityData.length) : 0`. -/
def avgActiveUsers (activityData : List SeriesPoint) : ℤ :=
  if 0 < activityData.length then
    round ((activityData.map SeriesPoint.activeUsers).sum / (activityData.length : ℚ))
  else 0

/-- `avgHourlyActivity` of `HourlyActivity` (`src/unnamed/part_003` lines 45-48):
`hourlyData.length > 0 ? Math.round(hourlyData.reduce((s,i) => s + i.value, 0) / hourlyData.length) : 0`. -/
def avgHourlyActivity (hourlyData : List HourPoint) : ℤ :=
  if 0 < hourlyData.length then
    round ((hourlyData.map HourPoint.value).sum / (hourlyData.length : ℚ))
  else 0

/-- Modelled from the spec: the constant `average` field the backend
Daily Active Users series builder attaches (the FastAPI
`app/api/v1/charts.py` is not under `src/`); per §4.3 it is "the simple
mean across all returned days". -/
def builderAverage (values : List ℚ) : ℚ :=
  values.sum / (values.length : ℚ)

/-- Modelled from the spec: the Daily Active Users series builder
(backend `app/api/v1/charts.py`, not under `src/`): per day one point
with that day's distinct-user count, each point carrying the same
`average` field equal to the simple mean across all returned days. -/
def dailyActiveUsersSeries (raw : List (String × ℚ)) : List SeriesPoint :=
  raw.map (fun p => ⟨p.1, p.2, builderAverage (raw.map Prod.snd)⟩)

/-- The `zoom` handler of `ActivityCharts.tsx` as a function of the drag
endpoints: returns the `{ start, end }` range passed to
`onDateRangeChange`, or `none` when nothing is emitted.
`if (left === right || right === '') return;`
`if (left > right) [left, right] = [right, left];`
`onDateRangeChange({ start: left, end: right })`. -/
def zoom (left right : String) : Option DateRange :=
  if left = right ∨ right = "" then none
  else if jsStrLt right.data left.data then some ⟨right, left⟩
  else some ⟨left, right⟩

/-! ## Feature distribution (`frontend/src/components/FeatureDistribution.tsx`) -/

/-- `const totalDays = 30;` of `FeatureDistribution.tsx` line 62 (and the
identical constant in `src/unnamed/part_006` line 73, where the comment
reads `// TODO: Calculate from actual date range`). -/
def totalDays : Nat := 30

/-- The per-day average for one feature entry, as computed by the
component from its `dateRange` prop and the entry's `value`:
`Math.round(item.value / totalDays)`.  The `dateRange` argument is the
prop the component receives; the computation never reads it. -/
def featureAvgPerDay (dateRange : DateRange) (value : ℚ) : ℤ :=
  round (value / (totalDays : ℚ))

/-- The inclusive day count `D = end - start + 1` of a date range given
by day numbers, per §4.1 of the spec. -/
def rangeDayCount (startDay endDay : Int) : Int :=
  endDay - startDay + 1

/-! ## Calendar dates as day numbers

The pickers call `new Date()` / `new Date('2025-11-06')`, subtract days
with `setDate`, and serialize with `toISOString().split('T')[0]`.  We
model an instant by its UTC day number (days since 1970-01-01) and
implement the standard civil-calendar conversion so concrete day numbers
evaluate to their `YYYY-MM-DD` string. -/

/-- Day number (days since 1970-01-01) of a proleptic-Gregorian civil
date, using floor division so the formula holds for every year. -/
def daysFromCivil (y m d : Int) : Int :=
  let y2 : Int := if m ≤ 2 then y - 1 else y
  let era : Int := Int.fdiv y2 400
  let yoe : Int := y2 - era * 400
  let mp : Int := if 2 < m then m - 3 else m + 9
  let doy : Int := Int.fdiv (153 * mp + 2) 5 + d - 1
  let doe : Int := yoe * 365 + Int.fdiv yoe 4 - Int.fdiv yoe 100 + doy
  era * 146097 + doe - 719468

/-- Civil date `(year, month, day)` of a day number; inverse of
`daysFromCivil`. -/
def civilFromDays (z0 : Int) : Int × Int × Int :=
  let z : Int := z0 + 719468
  let era : Int := Int.fdiv z 146097
  let doe : Int := z - era * 146097
  let yoe : Int :=
    Int.fdiv (doe - Int.fdiv doe 1460 + Int.fdiv doe 36524 - Int.fdiv doe 146096) 365
  let y : Int := yoe + era * 400
  let doy : Int := doe - (365 * yoe + Int.fdiv yoe 4 - Int.fdiv yoe 100)
  let mp : Int := Int.fdiv (5 * doy + 2) 153
  let d : Int := doy - Int.fdiv (153 * mp + 2) 5 + 1
  let m : Int := if mp < 10 then mp + 3 else mp - 9
  (if m ≤ 2 then y + 1 else y, m, d)

/-- Zero-pad a nonnegative integer to at least `width` digits. -/
def padNum (width : Nat) (n : Int) : String :=
  let s := toString n.toNat
  ⟨List.replicate (width - s.length) '0'⟩ ++ s

/-- The `YYYY-MM-DD` string of a day number, as produced by JS
`date.toISOString().split('T')[0]`. -/
def isoOfDay (z : Int) : String :=
  let c := civilFromDays z
  padNum 4 c.1 ++ "-" ++ padNum 2 c.2.1 ++ "-" ++ padNum 2 c.2.2

/-! ## Date-range pickers -/

/-- `handleRangeChange` of
`frontend/src/components/DateRangePicker.tsx` (lines 38-64), as a
function of the current UTC day number `today` (`const endDate = new
Date();` — the comment in the source reads "Use current date instead of
hardcoded") and the selected preset `value`; returns the range passed to
`onDateRangeChange`. -/
def handleRangeChange (today : Int) (value : String) : DateRange :=
  let endDate := today
  let startDate :=
    if value = "today" then endDate
    else if value = "7d" then endDate - 7
    else if value = "30d" then endDate - 30
    else if value = "90d" then endDate - 90
    else endDate - 30
  ⟨isoOfDay startDate, isoOfDay endDate⟩

/-- `handleRangeChange` of the legacy picker copy (`src/unnamed/part_007`
lines 17-39): `const endDate = new Date('2025-11-06');`, so every
invocation anchors to that fixed date regardless of the clock. -/
def handleRangeChangeFixed (value : String) : DateRange :=
  let endDate := daysFromCivil 2025 11 6
  let startDate :=
    if value = "7d" then endDate - 7
    else if value = "30d" then endDate - 30
    else if value = "90d" then endDate - 90
    else endDate - 30
  ⟨isoOfDay startDate, isoOfDay endDate⟩

/-- `getDefaultDateRange` of `frontend/src/App.tsx` (lines 20-30): the
last 30 days anchored to the real current date. -/
def getDefaultDateRange (today : Int) : DateRange :=
  ⟨isoOfDay (today - 30), isoOfDay today⟩

/-! ## Backend analytics modelled from the spec -/

/-- Round to one decimal place, the `round(x, 1)` of the spec's change%
formula. -/
def round1 (x : ℚ) : ℚ :=
  (round (x * 10) : ℚ) / 10

/-- Modelled from the spec: the period-over-period change percentage of
the Metrics Aggregator (backend `app/api/v1/metrics.py`, not under
`src/`): `change% = previous == 0 ? (current == 0 ? 0 : 100) :
round(((current - previous) / previous) * 100, 1)` (§4.2). -/
def changePercent (previous current : ℚ) : ℚ :=
  if previous = 0 then (if current = 0 then 0 else 100)
  else round1 ((current - previous) / previous * 100)

/-- The classified activity type of a Session (§4.5). -/
inductive ActivityType where
  | shared
  | document
  | query
  | conversation
deriving DecidableEq, Repr

/-- The facts about one Session that the classifier reads: its
`is_shared_twin` flag and how many Documents and Queries it has. -/
structure SessionFacts where
  is_shared_twin : Bool
  documentCount : Nat
  queryCount : Nat
deriving DecidableEq, Repr

/-- Modelled from the spec: the activity classifier (backend
`app/api/v1/activities.py`, not under `src/`), §4.5 priority order,
first match wins: shared, else document when the Session has ≥1
Document, else query when it has ≥1 Query, else conversation. -/
def classifyActivity (s : SessionFacts) : ActivityType :=
  if s.is_shared_twin then ActivityType.shared
  else if 1 ≤ s.documentCount then ActivityType.document
  else if 1 ≤ s.queryCount then ActivityType.query
  else ActivityType.conversation

/-! ## Helper lemmas -/

/-- `jsStrLt` is irreflexive. -/
theorem jsStrLt_self (as : List Char) : jsStrLt as as = false := by
  induction as with
  | nil => rfl
  | cons a t ih => simp [jsStrLt, lt_irrefl, ih]

/-- `jsStrLt` is asymmetric. -/
theorem jsStrLt_asymm : ∀ as bs : List Char,
    jsStrLt as bs = true → jsStrLt bs as = false := by
  intro as
  induction as with
  | nil =>
    intro bs h
    cases bs with
    | nil => simp [jsStrLt] at h
    | cons b t => rfl
  | cons a t ih =>
    intro bs h
    cases bs with
    | nil => simp [jsStrLt] at h
    | cons b u =>
      simp only [jsStrLt] at h ⊢
      by_cases hab : a < b
      · simp [hab, lt_asymm hab]
      · by_cases hba : b < a
        · simp [hab, hba] at h
        · simp only [hab, hba, if_false] at h
          simp [hab, hba, ih u h]

/-! ## Claim C3 — Activities page search filter -/

/-- C3 counterexample: the claim says the filter keeps exactly the
activities whose user email contains the search string
case-insensitively and matches nothing else; but for the search string
"report" the page keeps an activity whose email does not contain
"report", because its action text does. -/
theorem c3_counterexample :
    filteredActivities "report"
        [⟨1, "bob@example.com", "Drafted report", "document", true, false, 1, 0⟩] =
      [⟨1, "bob@example.com", "Drafted report", "document", true, false, 1, 0⟩] ∧
    specUserEmailFilter "report"
        [⟨1, "bob@example.com", "Drafted report", "document", true, false, 1, 0⟩] = [] ∧
    jsIncludes (jsToLower "bob@example.com") (jsToLower "report") = false := by
  refine ⟨by decide, by decide, by decide⟩

/-- C3 (amended): the Activities page keeps exactly those activities
whose user email contains the search string as a case-insensitive
substring OR whose action summary contains it as a case-insensitive
substring. -/
theorem c3_search_filter_spec (searchQuery : String) (acts : List Activity)
    (a : Activity) :
    a ∈ filteredActivities searchQuery acts ↔
      a ∈ acts ∧
        (jsIncludes (jsToLower a.user) (jsToLower searchQuery) = true ∨
          jsIncludes (jsToLower a.action) (jsToLower searchQuery) = true) := by
  simp [filteredActivities, matchesSearch, List.mem_filter, Bool.or_eq_true]

/-! ## Claim C4 — document/query badges are independent of the type tag -/

/-- C4: in each Activities table row, the document-count badge appears
iff `hasDocuments` and the query-count badge iff `hasQueries`, each with
its own count, and the rendered badges do not depend on the activity's
classified `type`; so a document-classified activity still displays its
query count. -/
theorem c4_badges_iff_flags (a : Activity) :
    (TableBadge.docBadge a.documentCount ∈ activityBadges a ↔ a.hasDocuments = true) ∧
    (TableBadge.queryBadge a.queryCount ∈ activityBadges a ↔ a.hasQueries = true) ∧
    ((∃ c, TableBadge.docBadge c ∈ activityBadges a) ↔ a.hasDocuments = true) ∧
    ((∃ c, TableBadge.queryBadge c ∈ activityBadges a) ↔ a.hasQueries = true) ∧
    (∀ t, activityBadges { a with type := t } = activityBadges a) := by
  obtain ⟨i, u, act, ty, hd, hq, dc, qc⟩ := a
  cases hd <;> cases hq <;> simp [activityBadges]

/-! ## Claim C8 — envelope response breaks the page's `.filter` call -/

/-- C8: the Activities page stores the `getAllActivities` result and
calls `.filter` on it; on the documented pagination envelope the filter
step is undefined (no such method on a plain object), while on a bare
array it yields the filtered activity list. -/
theorem c8_envelope_filter_undefined (e : Envelope) (xs : List Activity)
    (searchQuery : String) :
    activitiesPageFiltered (getAllActivitiesReturn e) searchQuery = none ∧
    activitiesPageFiltered (ApiResponse.bareArray xs) searchQuery =
      some (filteredActivities searchQuery xs) :=
  ⟨rfl, rfl⟩

/-! ## Claim C5 — zoomed chart data is the inclusive date-range filter -/

/-- C5: for a fetched series whose points all lie within the base range,
the data the dashboard displays under a zoom range is exactly the points
with `start <= date <= end` (both endpoints included); and when the zoom
range equals the base range the full fetched series is returned
unchanged. -/
theorem c5_filtered_data_spec (dateRange baseDateRange : DateRange)
    (data : List SeriesPoint)
    (hstart : dateRange.start ≠ "") (hstop : dateRange.stop ≠ "")
    (hbase : ∀ p ∈ data, jsLe baseDateRange.start p.date = true ∧
      jsLe p.date baseDateRange.stop = true) :
    getFilteredData dateRange baseDateRange data =
      data.filter (fun p => jsLe dateRange.start p.date && jsLe p.date dateRange.stop) ∧
    (dateRange = baseDateRange → getFilteredData dateRange baseDateRange data = data) := by
  by_cases hd : data = []
  · subst hd
    simp [getFilteredData]
  · have hguard : ¬ (dateRange.start = "" ∨ dateRange.stop = "" ∨ data = []) := by
      simp [hstart, hstop, hd]
    by_cases heq : dateRange.start = baseDateRange.start ∧ dateRange.stop = baseDateRange.stop
    · have hall : data.filter
          (fun p => jsLe dateRange.start p.date && jsLe p.date dateRange.stop) = data := by
        refine List.filter_eq_self.mpr ?_
        intro p hp
        have h1 := (hbase p hp).1
        have h2 := (hbase p hp).2
        rw [heq.1, heq.2]
        simp [h1, h2]
      constructor
      · rw [getFilteredData, if_neg hguard, if_pos heq, hall]
      · intro _
        rw [getFilteredData, if_neg hguard, if_pos heq]
    · constructor
      · rw [getFilteredData, if_neg hguard, if_neg heq]
      · intro habs
        subst habs
        exact absurd ⟨rfl, rfl⟩ heq

/-- C5 witness: a concrete three-point series over the base range
2025-01-01..2025-01-03, viewed at the base range itself, passes through
both unchanged and as the inclusive filter. -/
theorem c5_filtered_data_witness :
    getFilteredData ⟨"2025-01-01", "2025-01-03"⟩ ⟨"2025-01-01", "2025-01-03"⟩
        [⟨"2025-01-01", 3, 2⟩, ⟨"2025-01-02", 1, 2⟩, ⟨"2025-01-03", 2, 2⟩] =
      ([⟨"2025-01-01", 3, 2⟩, ⟨"2025-01-02", 1, 2⟩, ⟨"2025-01-03", 2, 2⟩] :
          List SeriesPoint).filter
        (fun p => jsLe "2025-01-01" p.date && jsLe p.date "2025-01-03") ∧
    getFilteredData ⟨"2025-01-01", "2025-01-03"⟩ ⟨"2025-01-01", "2025-01-03"⟩
        [⟨"2025-01-01", 3, 2⟩, ⟨"2025-01-02", 1, 2⟩, ⟨"2025-01-03", 2, 2⟩] =
      [⟨"2025-01-01", 3, 2⟩, ⟨"2025-01-02", 1, 2⟩, ⟨"2025-01-03", 2, 2⟩] := by
  have h := c5_filtered_data_spec ⟨"2025-01-01", "2025-01-03"⟩ ⟨"2025-01-01", "2025-01-03"⟩
    [⟨"2025-01-01", 3, 2⟩, ⟨"2025-01-02", 1, 2⟩, ⟨"2025-01-03", 2, 2⟩]
    (by decide) (by decide) (by decide)
  exact ⟨h.1, h.2 rfl⟩

/-! ## Claim C7 — zoom always emits an ordered range -/

/-- C7: every range the zoom handler emits satisfies `start <= end`;
reversed drag endpoints are swapped before emitting, and a degenerate
(`left == right`) or empty (`right == ''`) selection emits nothing, so
the `InvalidRange` condition `start > end` is unreachable from zooming. -/
theorem c7_zoom_emits_ordered_range (left right : String) :
    (∀ dr : DateRange, zoom left right = some dr → jsLe dr.start dr.stop = true) ∧
    zoom left left = none ∧
    zoom left "" = none ∧
    (jsStrLt right.data left.data = true → right ≠ "" →
      zoom left right = some ⟨right, left⟩) := by
  refine ⟨?_, by simp [zoom], by simp [zoom], ?_⟩
  · intro dr hdr
    by_cases h1 : left = right ∨ right = ""
    · simp [zoom, h1] at hdr
    · by_cases h2 : jsStrLt right.data left.data
      · rw [zoom, if_neg h1, if_pos h2] at hdr
        cases hdr
        simp [jsLe, jsStrLt_asymm _ _ h2]
      · rw [zoom, if_neg h1, if_neg h2] at hdr
        cases hdr
        simp only [Bool.not_eq_true] at h2
        simp [jsLe, h2]
  · intro hlt hne
    have hne2 : ¬ (left = right ∨ right = "") := by
      rintro (rfl | rfl)
      · rw [jsStrLt_self] at hlt
        exact absurd hlt (by simp)
      · exact hne rfl
    rw [zoom, if_neg hne2, if_pos hlt]

/-- C7 witness: the reversed drag selection (2025-01-05, 2025-01-02) is
swapped into an ordered range. -/
theorem c7_zoom_witness :
    zoom "2025-01-05" "2025-01-02" = some ⟨"2025-01-02", "2025-01-05"⟩ ∧
    jsLe "2025-01-02" "2025-01-05" = true := by
  have hsw := (c7_zoom_emits_ordered_range "2025-01-05" "2025-01-02").2.2.2
    (by decide) (by decide)
  exact ⟨hsw, (c7_zoom_emits_ordered_range "2025-01-05" "2025-01-02").1 _ hsw⟩

/-! ## Claim C6 — reference average of a displayed series -/

/-- C6 counterexample: for the two-day series with values 1 and 2 the
builder attaches the constant average field 3/2 to every point, but the
reference value the client shows is `Math.round` of the mean, namely 2;
the two do not coincide. -/
theorem c6_counterexample :
    (dailyActiveUsersSeries [("2025-01-01", 1), ("2025-01-02", 2)]).map
        SeriesPoint.average = [3/2, 3/2] ∧
    avgActiveUsers (dailyActiveUsersSeries [("2025-01-01", 1), ("2025-01-02", 2)]) = 2 ∧
    ((2 : ℚ) ≠ 3 / 2) := by
  refine ⟨by norm_num [dailyActiveUsersSeries, builderAverage], ?_, by norm_num⟩
  norm_num [avgActiveUsers, dailyActiveUsersSeries, builderAverage, round_eq]

/-- C6 (amended): the reference average shown next to a chart is the
arithmetic mean of the displayed points' values rounded to the nearest
integer, and 0 for an empty series (the divide-by-zero case is defined,
not thrown); the series builder attaches the exact (unrounded) mean as a
constant per-point `average` field, and across the full returned series
the client's reference value equals the rounding of that attached field
— the two coincide exactly only when the mean is an integer. -/
theorem c6_reference_average_spec (data : List SeriesPoint)
    (hourly : List HourPoint) (raw : List (String × ℚ)) :
    (0 < data.length →
      avgActiveUsers data =
        round ((data.map SeriesPoint.activeUsers).sum / (data.length : ℚ))) ∧
    avgActiveUsers [] = 0 ∧
    avgHourlyActivity [] = 0 ∧
    (0 < hourly.length →
      avgHourlyActivity hourly =
        round ((hourly.map HourPoint.value).sum / (hourly.length : ℚ))) ∧
    (∀ p ∈ dailyActiveUsersSeries raw, p.average = builderAverage (raw.map Prod.snd)) ∧
    avgActiveUsers (dailyActiveUsersSeries raw) =
      round (builderAverage (raw.map Prod.snd)) := by
  refine ⟨fun h => by rw [avgActiveUsers, if_pos h], rfl, rfl,
    fun h => by rw [avgHourlyActivity, if_pos h], ?_, ?_⟩
  · intro p hp
    rw [dailyActiveUsersSeries, List.mem_map] at hp
    obtain ⟨q, _, rfl⟩ := hp
    rfl
  · cases raw with
    | nil => simp [avgActiveUsers, dailyActiveUsersSeries, builderAverage]
    | cons hd tl =>
      have hlen : (dailyActiveUsersSeries (hd :: tl)).length = (hd :: tl).length := by
        simp [dailyActiveUsersSeries]
      have hmap : (dailyActiveUsersSeries (hd :: tl)).map SeriesPoint.activeUsers =
          (hd :: tl).map Prod.snd := by
        simp [dailyActiveUsersSeries, List.map_map]
      rw [avgActiveUsers, if_pos (by rw [hlen]; exact Nat.succ_pos _), hmap, hlen,
        builderAverage, List.length_map]

/-- C6 witness: a one-point series makes both the rounded mean and the
empty-series clauses concrete. -/
theorem c6_reference_average_witness :
    avgActiveUsers [⟨"2025-01-01", 1, 1⟩] =
      round ((([⟨"2025-01-01", 1, 1⟩] : List SeriesPoint).map
          SeriesPoint.activeUsers).sum /
        (([⟨"2025-01-01", 1, 1⟩] : List SeriesPoint).length : ℚ)) ∧
    avgActiveUsers [] = 0 :=
  ⟨(c6_reference_average_spec [⟨"2025-01-01", 1, 1⟩] [] []).1 (by decide),
    (c6_reference_average_spec [] [] []).2.1⟩

/-! ## Claim C9 — per-day feature average divides by a hard-coded 30 -/

/-- C9: the per-day average shown for a feature entry is
`Math.round(value / 30)` whatever date range is selected — the divisor is
the constant `totalDays = 30`, not the length of the requested range —
and for every range length other than 30 days there is a value whose
displayed per-day average differs from the true per-day average for that
length. -/
theorem c9_avg_per_day_hardcoded (dr dr2 : DateRange) (value : ℚ) :
    featureAvgPerDay dr value = featureAvgPerDay dr2 value ∧
    featureAvgPerDay dr value = round (value / 30) ∧
    (∀ days : ℕ, days ≠ 30 → 1 ≤ days →
      featureAvgPerDay dr ((30 : ℚ) * days) ≠
        round (((30 : ℚ) * days) / (days : ℚ))) := by
  refine ⟨rfl, rfl, ?_⟩
  intro days hne hpos
  have hd0 : (days : ℚ) ≠ 0 := by
    exact_mod_cast Nat.pos_iff_ne_zero.mp hpos
  have hleft : featureAvgPerDay dr ((30 : ℚ) * days) = (days : ℤ) := by
    rw [featureAvgPerDay, totalDays]
    push_cast
    rw [mul_comm, mul_div_assoc, div_self (by norm_num), mul_one, round_natCast]
  have hright : round (((30 : ℚ) * days) / (days : ℚ)) = 30 := by
    rw [mul_div_assoc, div_self hd0, mul_one]
    norm_num [round_eq]
  rw [hleft, hright]
  exact_mod_cast hne

/-- C9 witness: for a 7-day range the displayed average of a value of
210 is 7, not the correct 30. -/
theorem c9_avg_per_day_witness :
    featureAvgPerDay ⟨"2025-01-01", "2025-01-07"⟩ ((30 : ℚ) * (7 : ℕ)) ≠
      round (((30 : ℚ) * (7 : ℕ)) / ((7 : ℕ) : ℚ)) :=
  (c9_avg_per_day_hardcoded ⟨"2025-01-01", "2025-01-07"⟩
    ⟨"2025-01-01", "2025-01-07"⟩ 0).2.2 7 (by decide) (by decide)

/-! ## Claim C1 — period-over-period change percentage -/

/-- C1: for counts `previous` and `current`, the change percentage is 0
when both are 0, 100 when the previous period is 0 and the current is
positive, and otherwise `round(((current - previous) / previous) * 100, 1)`. -/
theorem c1_change_percent_cases (previous current : ℕ) :
    (previous = 0 → current = 0 → changePercent previous current = 0) ∧
    (previous = 0 → 0 < current → changePercent previous current = 100) ∧
    (previous ≠ 0 →
      changePercent previous current =
        round1 (((current : ℚ) - (previous : ℚ)) / (previous : ℚ) * 100)) := by
  refine ⟨?_, ?_, ?_⟩
  · rintro rfl rfl
    simp [changePercent]
  · rintro rfl hc
    rw [changePercent, if_pos (by norm_num), if_neg]
    exact_mod_cast Nat.pos_iff_ne_zero.mp hc
  · intro hp
    rw [changePercent, if_neg (by exact_mod_cast hp)]

/-- C1 witness: the three branches at the concrete inputs (0,0), (0,5)
and (4,5). -/
theorem c1_change_percent_witness :
    changePercent ((0 : ℕ) : ℚ) ((0 : ℕ) : ℚ) = 0 ∧
    changePercent ((0 : ℕ) : ℚ) ((5 : ℕ) : ℚ) = 100 ∧
    changePercent ((4 : ℕ) : ℚ) ((5 : ℕ) : ℚ) =
      round1 ((((5 : ℕ) : ℚ) - ((4 : ℕ) : ℚ)) / ((4 : ℕ) : ℚ) * 100) :=
  ⟨(c1_change_percent_cases 0 0).1 rfl rfl,
    (c1_change_percent_cases 0 5).2.1 rfl (by norm_num),
    (c1_change_percent_cases 4 5).2.2 (by norm_num)⟩

/-! ## Claim C2 — activity classification priority order -/

/-- C2: the classified activity type follows the first-match-wins
priority order shared > document > query > conversation; in particular a
non-shared Session with both a Document and a Query classifies as
`document`, never `query` or `conversation`. -/
theorem c2_classification_priority (s : SessionFacts) :
    (s.is_shared_twin = true → classifyActivity s = ActivityType.shared) ∧
    (s.is_shared_twin = false → 1 ≤ s.documentCount →
      classifyActivity s = ActivityType.document) ∧
    (s.is_shared_twin = false → s.documentCount = 0 → 1 ≤ s.queryCount →
      classifyActivity s = ActivityType.query) ∧
    (s.is_shared_twin = false → s.documentCount = 0 → s.queryCount = 0 →
      classifyActivity s = ActivityType.conversation) ∧
    (s.is_shared_twin = false → 1 ≤ s.documentCount → 1 ≤ s.queryCount →
      classifyActivity s = ActivityType.document ∧
        classifyActivity s ≠ ActivityType.query ∧
        classifyActivity s ≠ ActivityType.conversation) := by
  obtain ⟨ist, dc, qc⟩ := s
  cases ist with
  | true =>
    exact ⟨fun _ => by simp [classifyActivity], fun h => absurd h (by simp),
      fun h => absurd h (by simp), fun h => absurd h (by simp),
      fun h => absurd h (by simp)⟩
  | false =>
    refine ⟨fun h => absurd h (by simp), ?_, ?_, ?_, ?_⟩
    · intro _ hdc
      simp [classifyActivity, hdc]
    · intro _ hdc0 hqc
      have h1 : dc = 0 := hdc0
      have h2 : 1 ≤ qc := hqc
      subst h1
      simp [classifyActivity, h2]
    · intro _ hdc0 hqc0
      have h1 : dc = 0 := hdc0
      have h2 : qc = 0 := hqc0
      subst h1
      subst h2
      simp [classifyActivity]
    · intro _ hdc hqc
      have hcl : classifyActivity ⟨false, dc, qc⟩ = ActivityType.document := by
        simp [classifyActivity, hdc]
      exact ⟨hcl, by rw [hcl]; decide, by rw [hcl]; decide⟩

/-- C2 witness: a non-shared Session with one Document and one Query
classifies as `document` and as neither `query` nor `conversation`. -/
theorem c2_classification_witness :
    classifyActivity ⟨false, 1, 1⟩ = ActivityType.document ∧
    classifyActivity ⟨false, 1, 1⟩ ≠ ActivityType.query ∧
    classifyActivity ⟨false, 1, 1⟩ ≠ ActivityType.conversation :=
  (c2_classification_priority ⟨false, 1, 1⟩).2.2.2.2 rfl (by decide) (by decide)

/-! ## Claim C10 — which clock anchors the date-range presets -/

/-- C10 counterexample: `handleRangeChange` of
`frontend/src/components/DateRangePicker.tsx` is anchored to the current
date at invocation, not to the fixed date 2025-11-06: two invocations on
consecutive days emit different ranges, and the emitted end is not
2025-11-06. -/
theorem c10_counterexample :
    handleRangeChange (daysFromCivil 2026 10 12) "30d" ≠
      handleRangeChange (daysFromCivil 2026 10 13) "30d" ∧
    (handleRangeChange (daysFromCivil 2026 10 12) "30d").stop ≠ "2025-11-06" ∧
    (handleRangeChange (daysFromCivil 2026 10 12) "30d").stop = "2026-10-12" := by
  refine ⟨by decide, by decide, by decide⟩

/-- C10 (amended): the shipped `DateRangePicker`'s `handleRangeChange`
anchors to the current date at the time of invocation — it emits end =
today and start exactly 7, 30 or 90 days earlier per preset (and start =
end for 'today') — and therefore agrees with the app's initial default
range about 'now': the '30d' preset reproduces `getDefaultDateRange`
exactly.  Only the legacy picker copy (`src/unnamed/part_007`) hard-codes
end = 2025-11-06 with start 7/30/90 days earlier, independent of the
clock. -/
theorem c10_picker_clock_anchored (today : Int) :
    handleRangeChange today "today" = ⟨isoOfDay today, isoOfDay today⟩ ∧
    handleRangeChange today "7d" = ⟨isoOfDay (today - 7), isoOfDay today⟩ ∧
    handleRangeChange today "30d" = ⟨isoOfDay (today - 30), isoOfDay today⟩ ∧
    handleRangeChange today "90d" = ⟨isoOfDay (today - 90), isoOfDay today⟩ ∧
    handleRangeChange today "30d" = getDefaultDateRange today ∧
    handleRangeChangeFixed "7d" = ⟨"2025-10-30", "2025-11-06"⟩ ∧
    handleRangeChangeFixed "30d" = ⟨"2025-10-07", "2025-11-06"⟩ ∧
    handleRangeChangeFixed "90d" = ⟨"2025-08-08", "2025-11-06"⟩ :=
  ⟨rfl, rfl, rfl, rfl, rfl, by decide, by decide, by decide⟩
